import Mathlib

/-!
Verification of the request-signing and webhook-verification core of
`src/server.py` (infini-mcp).

The development shallowly embeds the two signing code paths of the source:

* `InfiniClient._sign_request` (lines 36-75): canonical signing string,
  body digest, HMAC-SHA256 signature, and header assembly for outbound
  requests — embedded as `Infini.sign_request` (with the wall-clock date
  string and the configured credential passed as explicit parameters,
  since the source reads them from the clock and from module globals).
* `InfiniClient.request` (lines 77-125): only its credential guard and
  the headers it attaches are in scope — embedded as
  `Infini.clientRequest`; the HTTP transport itself is out of core scope.
* `verify_webhook_signature` (lines 267-309): webhook signing string,
  expected signature, and comparison — embedded as
  `Infini.verify_webhook_signature`, with the module global
  `INFINI_SECRET_KEY` passed as the explicit `dflt` parameter.

SHA-256, HMAC-SHA256 and standard base64 are implemented executably over
`List Nat` byte sequences (each byte < 256, words reduced mod 2^32), and
validated below against FIPS 180-4 / RFC 4231 / RFC 4648 test vectors.
Python strings are modelled as Lean strings with UTF-8 byte encoding
(`strBytes`); `str.upper()` is modelled ASCII-wise by `pyUpper`, which
agrees with Python on the HTTP method names the code is called with.
-/

set_option maxRecDepth 1000000

namespace Infini

/-- Truncate to a 32-bit word, as Python's fixed-width hash arithmetic. -/
def w32 (n : Nat) : Nat := n &&& 0xFFFFFFFF

/-- Right rotation of a 32-bit word. -/
def rotr (n x : Nat) : Nat := w32 ((x >>> n) ||| (x <<< (32 - n)))

/-- SHA-256 big Sigma-0. -/
def bSig0 (x : Nat) : Nat := rotr 2 x ^^^ rotr 13 x ^^^ rotr 22 x

/-- SHA-256 big Sigma-1. -/
def bSig1 (x : Nat) : Nat := rotr 6 x ^^^ rotr 11 x ^^^ rotr 25 x

/-- SHA-256 small sigma-0. -/
def sSig0 (x : Nat) : Nat := rotr 7 x ^^^ rotr 18 x ^^^ (x >>> 3)

/-- SHA-256 small sigma-1. -/
def sSig1 (x : Nat) : Nat := rotr 17 x ^^^ rotr 19 x ^^^ (x >>> 10)

/-- SHA-256 choice function (complement taken mod 2^32). -/
def ch (x y z : Nat) : Nat := (x &&& y) ^^^ ((x ^^^ 0xFFFFFFFF) &&& z)

/-- SHA-256 majority function. -/
def maj (x y z : Nat) : Nat := (x &&& y) ^^^ (x &&& z) ^^^ (y &&& z)

/-- SHA-256 round constants (FIPS 180-4). -/
def K : List Nat :=
  [0x428A2F98, 0x71374491, 0xB5C0FBCF, 0xE9B5DBA5,
   0x3956C25B, 0x59F111F1, 0x923F82A4, 0xAB1C5ED5,
   0xD807AA98, 0x12835B01, 0x243185BE, 0x550C7DC3,
   0x72BE5D74, 0x80DEB1FE, 0x9BDC06A7, 0xC19BF174,
   0xE49B69C1, 0xEFBE4786, 0x0FC19DC6, 0x240CA1CC,
   0x2DE92C6F, 0x4A7484AA, 0x5CB0A9DC, 0x76F988DA,
   0x983E5152, 0xA831C66D, 0xB00327C8, 0xBF597FC7,
   0xC6E00BF3, 0xD5A79147, 0x06CA6351, 0x14292967,
   0x27B70A85, 0x2E1B2138, 0x4D2C6DFC, 0x53380D13,
   0x650A7354, 0x766A0ABB, 0x81C2C92E, 0x92722C85,
   0xA2BFE8A1, 0xA81A664B, 0xC24B8B70, 0xC76C51A3,
   0xD192E819, 0xD6990624, 0xF40E3585, 0x106AA070,
   0x19A4C116, 0x1E376C08, 0x2748774C, 0x34B0BCB5,
   0x391C0CB3, 0x4ED8AA4A, 0x5B9CCA4F, 0x682E6FF3,
   0x748F82EE, 0x78A5636F, 0x84C87814, 0x8CC70208,
   0x90BEFFFA, 0xA4506CEB, 0xBEF9A3F7, 0xC67178F2]

/-- SHA-256 initial hash state (FIPS 180-4). -/
def H0 : List Nat :=
  [0x6A09E667, 0xBB67AE85, 0x3C6EF372, 0xA54FF53A,
   0x510E527F, 0x9B05688C, 0x1F83D9AB, 0x5BE0CD19]

/-- Group a byte list into big-endian 32-bit words. -/
def bytesToWords : List Nat → List Nat
  | b0 :: b1 :: b2 :: b3 :: rest =>
      ((b0 <<< 24) ||| (b1 <<< 16) ||| (b2 <<< 8) ||| b3) :: bytesToWords rest
  | _ => []

/-- Extend a 16-word block to the 64-word SHA-256 message schedule. -/
def extendSchedule (ws : List Nat) : List Nat :=
  (List.range 48).foldl
    (fun w _ =>
      let n := w.length
      w ++ [w32 (sSig1 (w.getD (n - 2) 0) + w.getD (n - 7) 0 +
                 sSig0 (w.getD (n - 15) 0) + w.getD (n - 16) 0)])
    ws

/-- One SHA-256 compression round on the eight-word working state. -/
def roundStep (s : List Nat) (kw : Nat × Nat) : List Nat :=
  match s with
  | [a, b, c, d, e, f, g, h] =>
      let t1 := w32 (h + bSig1 e + ch e f g + kw.1 + kw.2)
      let t2 := w32 (bSig0 a + maj a b c)
      [w32 (t1 + t2), a, b, c, w32 (d + t1), e, f, g]
  | _ => s

/-- Compress one 64-byte block into the hash state. -/
def compressBlock (hs : List Nat) (block : List Nat) : List Nat :=
  let w := extendSchedule (bytesToWords block)
  let fin := (K.zip w).foldl roundStep hs
  (hs.zip fin).map (fun p => w32 (p.1 + p.2))

/-- The 8-byte big-endian encoding of the message bit length. -/
def lengthBytes64 (n : Nat) : List Nat :=
  [(n >>> 56) &&& 0xFF, (n >>> 48) &&& 0xFF, (n >>> 40) &&& 0xFF, (n >>> 32) &&& 0xFF,
   (n >>> 24) &&& 0xFF, (n >>> 16) &&& 0xFF, (n >>> 8) &&& 0xFF, n &&& 0xFF]

/-- SHA-256 padding: a 0x80 byte, zeros to 56 mod 64, then the bit length. -/
def padMessage (msg : List Nat) : List Nat :=
  let len := msg.length
  let zeros := (120 - ((len + 1) % 64)) % 64
  msg ++ [0x80] ++ List.replicate zeros 0 ++ lengthBytes64 (len * 8)

/-- Chunking step: accumulate bytes and close a block at 64 bytes. -/
def toBlocksStep (acc : List (List Nat) × List Nat) (b : Nat) : List (List Nat) × List Nat :=
  let cur := acc.2 ++ [b]
  if cur.length = 64 then (acc.1 ++ [cur], []) else (acc.1, cur)

/-- Split a (padded, 64-divisible) byte list into 64-byte blocks. -/
def toBlocks (l : List Nat) : List (List Nat) :=
  (l.foldl toBlocksStep ([], [])).1

/-- Big-endian bytes of one 32-bit word. -/
def wordBytes (x : Nat) : List Nat :=
  [(x >>> 24) &&& 0xFF, (x >>> 16) &&& 0xFF, (x >>> 8) &&& 0xFF, x &&& 0xFF]

/-- SHA-256 of a byte sequence, as `hashlib.sha256(...).digest()`. -/
def sha256 (msg : List Nat) : List Nat :=
  ((toBlocks (padMessage msg)).foldl compressBlock H0).map wordBytes |>.flatten

/-- HMAC-SHA256 (RFC 2104), as `hmac.new(key, msg, hashlib.sha256).digest()`. -/
def hmacSha256 (key msg : List Nat) : List Nat :=
  let k0 := if key.length > 64 then sha256 key else key
  let k := k0 ++ List.replicate (64 - k0.length) 0
  sha256 ((k.map (fun b => b ^^^ 0x5C)) ++ sha256 ((k.map (fun b => b ^^^ 0x36)) ++ msg))

/-- UTF-8 encoding of one Unicode scalar value. -/
def utf8Bytes (n : Nat) : List Nat :=
  if n < 0x80 then [n]
  else if n < 0x800 then [0xC0 ||| (n >>> 6), 0x80 ||| (n &&& 0x3F)]
  else if n < 0x10000 then
    [0xE0 ||| (n >>> 12), 0x80 ||| ((n >>> 6) &&& 0x3F), 0x80 ||| (n &&& 0x3F)]
  else
    [0xF0 ||| (n >>> 18), 0x80 ||| ((n >>> 12) &&& 0x3F),
     0x80 ||| ((n >>> 6) &&& 0x3F), 0x80 ||| (n &&& 0x3F)]

/-- UTF-8 bytes of a string, as Python's `str.encode('utf-8')`. -/
def strBytes (s : String) : List Nat :=
  (s.data.map (fun c => utf8Bytes c.toNat)).flatten

/-- The standard base64 alphabet (RFC 4648). -/
def b64Alphabet : List Char :=
  "ABCDEFGHIJKLMNOPQRSTUVWXYZabcdefghijklmnopqrstuvwxyz0123456789+/".data

/-- Character for one 6-bit value. -/
def b64Char (n : Nat) : Char := b64Alphabet.getD n 'A'

/-- Base64 encoding of a byte list, three bytes to four characters. -/
def b64Chunks : List Nat → List Char
  | [] => []
  | [a] => [b64Char (a >>> 2), b64Char ((a &&& 3) <<< 4), '=', '=']
  | [a, b] =>
      [b64Char (a >>> 2), b64Char (((a &&& 3) <<< 4) ||| (b >>> 4)),
       b64Char ((b &&& 15) <<< 2), '=']
  | a :: b :: c :: rest =>
      b64Char (a >>> 2) :: b64Char (((a &&& 3) <<< 4) ||| (b >>> 4)) ::
      b64Char (((b &&& 15) <<< 2) ||| (c >>> 6)) :: b64Char (c &&& 63) :: b64Chunks rest

/-- Standard base64 of a byte list, as `base64.b64encode(...).decode()`. -/
def base64Encode (bs : List Nat) : String := String.mk (b64Chunks bs)

/-- ASCII model of Python's `str.upper()`; agrees with Python on the
ASCII method names the source calls it with. -/
def pyUpper (s : String) : String := s.map Char.toUpper

/-- The BodyDigestCalculator of server.py lines 56-57:
`base64.b64encode(hashlib.sha256(body.encode('utf-8')).digest()).decode('utf-8')`. -/
def bodyDigestBase64 (body : String) : String :=
  base64Encode (sha256 (strBytes body))

/-- The signing string built by `_sign_request` (server.py lines 51-58):
the f-string `"{key_id}\n{method.upper()} {path}\ndate: {gmt_time}\n"`,
with `"digest: SHA-256={body_digest_base64}\n"` appended when a body is
present. -/
def sign_signing_string (keyId method path : String) (body : Option String)
    (gmtTime : String) : String :=
  let base := keyId ++ "\n" ++ pyUpper method ++ " " ++ path ++ "\ndate: " ++ gmtTime ++ "\n"
  match body with
  | none => base
  | some b => base ++ "digest: SHA-256=" ++ bodyDigestBase64 b ++ "\n"

/-- The Authorization header template of `_sign_request` (server.py
lines 68-69); note the headers declaration is the fixed literal
`@request-target date`. -/
def authorizationHeader (keyId signature : String) : String :=
  "Signature keyId=\"" ++ keyId ++ "\",algorithm=\"hmac-sha256\",headers=\"@request-target date\",signature=\"" ++ signature ++ "\""

/-- The headers `_sign_request` returns: `Date`, `Authorization`, and
`Digest` when a body was supplied. -/
structure SignedHeaders where
  date : String
  authorization : String
  digest : Option String
  deriving DecidableEq, Repr

/-- Embedding of `InfiniClient._sign_request` (server.py lines 36-75).
The wall-clock HTTP date string and the configured credential are
explicit parameters; `secretKey` is the byte sequence
`INFINI_SECRET_KEY.encode()` held in `self.secret_key`. -/
def sign_request (keyId : String) (secretKey : List Nat) (method path : String)
    (body : Option String) (gmtTime : String) : SignedHeaders :=
  let bodyDigestB64 := body.map bodyDigestBase64
  let signature := base64Encode (hmacSha256 secretKey
    (strBytes (sign_signing_string keyId method path body gmtTime)))
  { date := gmtTime
    authorization := authorizationHeader keyId signature
    digest := bodyDigestB64.map (fun d => "SHA-256=" ++ d) }

/-- Python truthiness of an optional string: `None` and `""` are falsy. -/
def pyFalsy : Option String → Bool
  | none => true
  | some s => decide (s = "")

/-- The `self.secret_key` computed in `__init__` (server.py line 30):
`INFINI_SECRET_KEY.encode() if INFINI_SECRET_KEY else None`. -/
def secretKeyOf : Option String → Option (List Nat)
  | none => none
  | some s => if s = "" then none else some (strBytes s)

/-- Outcome of `InfiniClient.request` up to the point where headers are
attached: either the credentials guard fires (the source returns the
dict `error: API credentials not configured`) or a signed request is
dispatched carrying the returned headers. -/
inductive RequestResult where
  | credsError : RequestResult
  | dispatched : SignedHeaders → RequestResult
  deriving DecidableEq, Repr

/-- Embedding of the signing-relevant part of `InfiniClient.request`
(server.py lines 77-116): the credential guard at lines 90-91, then the
call to `_sign_request`. The serialized JSON body is taken as a given
optional string, and the HTTP transport after dispatch is out of core
scope. -/
def clientRequest (apiKey envSecret : Option String) (method path : String)
    (body : Option String) (gmtTime : String) : RequestResult :=
  match apiKey, secretKeyOf envSecret with
  | some k, some sk =>
      if k = "" then RequestResult.credsError
      else RequestResult.dispatched (sign_request k sk method path body gmtTime)
  | _, _ => RequestResult.credsError

/-- The configuration-error outcome of `verify_webhook_signature`
(server.py line 287); this return value realises the spec's
`ConfigurationError`. -/
def configMsg : String := "Error: No webhook secret available"

/-- The match outcome of `verify_webhook_signature` (server.py line 304). -/
def successMsg : String := "Webhook signature verified successfully"

/-- The mismatch outcome of `verify_webhook_signature` (server.py line
306); this return value realises the spec's boolean `false` verdict. -/
def failMsg : String := "Webhook signature verification failed"

/-- The internal-error outcome of `verify_webhook_signature` (server.py
line 309), `f"Error verifying webhook: {str(e)}"`; this return value
realises the spec's `VerificationError`. -/
def verifyExceptionMsg (e : String) : String := "Error verifying webhook: " ++ e

/-- The secret actually used by `verify_webhook_signature` after the
fallback at server.py lines 283-284: a falsy argument is replaced by the
module default `INFINI_SECRET_KEY`. -/
def effectiveSecret (arg dflt : Option String) : Option String :=
  if pyFalsy arg then dflt else arg

/-- The webhook signing string of server.py line 291: the direct
concatenation `f"{timestamp}{body}"`. -/
def webhookSigningString (timestamp body : String) : String := timestamp ++ body

/-- Whether a Python `str` is ASCII-only (every scalar value below 128),
as CPython's `str.isascii()` / `PyUnicode_IS_ASCII`. -/
def isAsciiStr (s : String) : Bool := s.data.all (fun c => decide (c.toNat < 128))

/-- The message of the `TypeError` CPython's `hmac.compare_digest`
raises when a `str` operand is not ASCII-only. -/
def nonAsciiMsg : String := "comparing strings with non-ASCII characters is not supported"

/-- Embedding of `verify_webhook_signature` (server.py lines 267-309).
`dflt` is the module global `INFINI_SECRET_KEY`. Inside the source's
`try` block the only failing step reachable from Lean-representable
inputs is `hmac.compare_digest(signature, expected_signature)` at line
303: for `str` operands CPython demands both be ASCII-only and raises
`TypeError` otherwise, which the `except` at line 309 formats via
`verifyExceptionMsg`. The guard below mirrors that precondition on both
operands (the expected signature, being base64 output, is always ASCII —
`base64Encode_ascii`). The `.encode('utf-8')` calls can only raise for
surrogates, which Lean `Char` cannot represent. -/
def verify_webhook_signature (dflt : Option String) (body signature timestamp : String)
    (webhook_secret : Option String) : String :=
  match effectiveSecret webhook_secret dflt with
  | none => configMsg
  | some s =>
      if s = "" then configMsg
      else
        let signingString := webhookSigningString timestamp body
        let expected := base64Encode (hmacSha256 (strBytes s) (strBytes signingString))
        if isAsciiStr signature && isAsciiStr expected then
          if signature = expected then successMsg else failMsg
        else verifyExceptionMsg nonAsciiMsg

/-- Modelled from the spec: the expected webhook signature
`base64(HMAC-SHA256(secret, timestamp + rawBody))`. -/
def expectedWebhookSignature (secret timestamp body : String) : String :=
  base64Encode (hmacSha256 (strBytes secret) (strBytes (webhookSigningString timestamp body)))

/-- Modelled from the spec: the canonical outbound signing string as the
spec describes it line by line — the keyId line, the `METHOD path` line,
the `date:` line, and (only when a body is present) the `digest:` line,
each terminated by a single line feed and with nothing after the last. -/
def canonicalSigningString (keyId method path : String) (body : Option String)
    (date : String) : String :=
  keyId ++ "\n" ++
  (pyUpper method ++ " " ++ path ++ "\n") ++
  ("date: " ++ date ++ "\n") ++
  (match body with
   | none => ""
   | some b => "digest: SHA-256=" ++ bodyDigestBase64 b ++ "\n")

/-- Modelled from the spec: the canonical string reconstructed from the
components of a signing output — keyId, upper-cased method, path, the
emitted Date header value, and the Digest header value when present. -/
def reconstructedSigningString (keyId method path : String) (out : SignedHeaders) : String :=
  keyId ++ "\n" ++
  (pyUpper method ++ " " ++ path ++ "\n") ++
  ("date: " ++ out.date ++ "\n") ++
  (match out.digest with
   | none => ""
   | some d => "digest: " ++ d ++ "\n")

/-- Whether `pat` is a leading run of `l`. -/
def hasPrefixL : List Char → List Char → Bool
  | [], _ => true
  | _ :: _, [] => false
  | p :: ps, c :: cs => p == c && hasPrefixL ps cs

/-- Whether `pat` occurs contiguously anywhere in `l`. -/
def hasSub (pat : List Char) : List Char → Bool
  | [] => pat.isEmpty
  | c :: cs => hasPrefixL pat (c :: cs) || hasSub pat cs

/-- Drop through the first occurrence of `tag`, returning what follows it. -/
def dropThrough (tag : List Char) : List Char → List Char
  | [] => []
  | c :: cs => if hasPrefixL tag (c :: cs) then (c :: cs).drop tag.length else dropThrough tag cs

/-- Take characters up to the first double quote. -/
def takeUntilQuote : List Char → List Char
  | [] => []
  | c :: cs => if c == '"' then [] else c :: takeUntilQuote cs

/-- The value of the `headers` field declared inside an Authorization
header: the text between `headers="` and the following quote. -/
def authHeadersField (auth : String) : String :=
  String.mk (takeUntilQuote (dropThrough ("headers=\"".data) auth.data))

/-! ## Validation of the crypto primitives against published vectors -/

/-- FIPS 180-4 vector: SHA-256 of "abc". -/
theorem sha256_abc_vector : sha256 (strBytes "abc") =
    [0xba, 0x78, 0x16, 0xbf, 0x8f, 0x01, 0xcf, 0xea, 0x41, 0x41, 0x40, 0xde, 0x5d, 0xae, 0x22, 0x23,
     0xb0, 0x03, 0x61, 0xa3, 0x96, 0x17, 0x7a, 0x9c, 0xb4, 0x10, 0xff, 0x61, 0xf2, 0x00, 0x15, 0xad] := by
  decide

/-- RFC 4231 test case 2: HMAC-SHA256 with key "Jefe". -/
theorem hmac_rfc4231_case2 :
    hmacSha256 (strBytes "Jefe") (strBytes "what do ya want for nothing?") =
    [0x5b, 0xdc, 0xc1, 0x46, 0xbf, 0x60, 0x75, 0x4e, 0x6a, 0x04, 0x24, 0x26, 0x08, 0x95, 0x75, 0xc7,
     0x5a, 0x00, 0x3f, 0x08, 0x9d, 0x27, 0x39, 0x83, 0x9d, 0xec, 0x58, 0xb9, 0x64, 0xec, 0x38, 0x43] := by
  decide

/-- RFC 4648 style base64 check. -/
theorem base64_vector :
    base64Encode (strBytes "Many hands make light work.") =
      "TWFueSBoYW5kcyBtYWtlIGxpZ2h0IHdvcmsu" := by
  decide

/-- The spec's concrete webhook vector (section 8.7): the expected
signature for secret "s3cr3t", timestamp "1700000000" and the JSON body,
matching the independently computed known-good value. -/
theorem webhook_vector :
    expectedWebhookSignature "s3cr3t" "1700000000" "\x7b\"a\":1\x7d" =
      "VN0xtaxyRS+iai1Rh9SILE3fsWqefqH5demY/1JT4os=" := by
  decide

/-! ## Helper lemmas -/

/-- Literal split used to align the source's merged f-string pieces with
the spec's line-by-line description. -/
theorem str_split_ndate : ("\ndate: " : String) = "\n" ++ "date: " := by decide

/-- Literal split for the digest line label. -/
theorem str_split_digest : ("digest: SHA-256=" : String) = "digest: " ++ "SHA-256=" := by decide

/-- The signing string the source builds equals the canonical signing
string the spec describes, line by line. -/
theorem signing_string_eq_canonical (keyId method path : String) (body : Option String)
    (date : String) :
    sign_signing_string keyId method path body date =
      canonicalSigningString keyId method path body date := by
  cases body with
  | none =>
      simp only [sign_signing_string, canonicalSigningString]
      rw [str_split_ndate]
      simp only [String.append_assoc, String.append_empty]
  | some b =>
      simp only [sign_signing_string, canonicalSigningString]
      rw [str_split_ndate]
      simp only [String.append_assoc]

/-- Reconstructing the canonical string from a signing output's
components recovers exactly the string that was signed. -/
theorem reconstructed_eq_signing (keyId : String) (secretKey : List Nat) (method path : String)
    (body : Option String) (date : String) :
    reconstructedSigningString keyId method path
        (sign_request keyId secretKey method path body date) =
      sign_signing_string keyId method path body date := by
  cases body with
  | none =>
      simp only [sign_request, reconstructedSigningString, sign_signing_string, Option.map]
      rw [str_split_ndate]
      simp only [String.append_assoc, String.append_empty]
  | some b =>
      simp only [sign_request, reconstructedSigningString, sign_signing_string, Option.map]
      rw [str_split_ndate, str_split_digest]
      simp only [String.append_assoc]

/-- Every 6-bit value maps to an ASCII character. -/
theorem b64Char_ascii (n : Nat) : (b64Char n).toNat < 128 := by
  by_cases h : n < 64
  · exact (by decide : ∀ m, m < 64 → (b64Char m).toNat < 128) n h
  · have hlen : b64Alphabet.length ≤ n := by
      have h64 : b64Alphabet.length = 64 := by decide
      omega
    unfold b64Char
    rw [List.getD_eq_default _ _ hlen]
    decide

/-- Every character base64 encoding produces is ASCII. -/
theorem b64Chunks_all_ascii : ∀ (bs : List Nat),
    (b64Chunks bs).all (fun c => decide (c.toNat < 128)) = true
  | [] => rfl
  | [a] => by simp [b64Chunks, b64Char_ascii]
  | [a, b] => by simp [b64Chunks, b64Char_ascii]
  | a :: b :: c :: rest => by
      simp [b64Chunks, b64Char_ascii, b64Chunks_all_ascii rest]

/-- Base64 output is always an ASCII-only string. -/
theorem base64Encode_ascii (bs : List Nat) : isAsciiStr (base64Encode bs) = true :=
  b64Chunks_all_ascii bs

/-- The expected webhook signature is always ASCII-only, so
`compare_digest` can only reject the received operand. -/
theorem expected_ascii (s ts body : String) :
    isAsciiStr (expectedWebhookSignature s ts body) = true :=
  base64Encode_ascii _

/-- Unfolding of the webhook verifier as a case split on the effective
secret. -/
theorem verify_eq_cases (dflt : Option String) (body sig ts : String) (arg : Option String) :
    verify_webhook_signature dflt body sig ts arg =
      match effectiveSecret arg dflt with
      | none => configMsg
      | some s =>
          if s = "" then configMsg
          else if isAsciiStr sig && isAsciiStr (expectedWebhookSignature s ts body) then
            if sig = expectedWebhookSignature s ts body then successMsg else failMsg
          else verifyExceptionMsg nonAsciiMsg := rfl

/-- Reduction of the verifier when the effective secret is absent. -/
theorem verify_none_eq (dflt : Option String) (body sig ts : String) (arg : Option String)
    (hE : effectiveSecret arg dflt = none) :
    verify_webhook_signature dflt body sig ts arg = configMsg := by
  rw [verify_eq_cases, hE]

/-- Reduction of the verifier when the effective secret is present. -/
theorem verify_some_eq (dflt : Option String) (body sig ts : String) (arg : Option String)
    (s : String) (hE : effectiveSecret arg dflt = some s) :
    verify_webhook_signature dflt body sig ts arg =
      if s = "" then configMsg
      else if isAsciiStr sig && isAsciiStr (expectedWebhookSignature s ts body) then
        if sig = expectedWebhookSignature s ts body then successMsg else failMsg
      else verifyExceptionMsg nonAsciiMsg := by
  rw [verify_eq_cases, hE]

/-- With a non-empty effective secret and an ASCII received signature
the verdict is decided by comparison against the expected signature. -/
theorem verify_match_eq (dflt : Option String) (body sig ts : String) (arg : Option String)
    (s : String) (hE : effectiveSecret arg dflt = some s) (hs : s ≠ "")
    (hA : isAsciiStr sig = true) :
    verify_webhook_signature dflt body sig ts arg =
      if sig = expectedWebhookSignature s ts body then successMsg else failMsg := by
  rw [verify_some_eq dflt body sig ts arg s hE, if_neg hs, hA, expected_ascii]
  rfl

/-- With a non-empty effective secret and a non-ASCII received signature
the program takes the `compare_digest` TypeError path into the line-309
exception outcome. -/
theorem verify_error_eq (dflt : Option String) (body sig ts : String) (arg : Option String)
    (s : String) (hE : effectiveSecret arg dflt = some s) (hs : s ≠ "")
    (hA : isAsciiStr sig = false) :
    verify_webhook_signature dflt body sig ts arg = verifyExceptionMsg nonAsciiMsg := by
  rw [verify_some_eq dflt body sig ts arg s hE, if_neg hs, hA]
  rfl

/-- With a non-empty caller-supplied secret and an ASCII received
signature the verifier verdict is decided by comparison against the
expected signature. -/
theorem verify_some_nonempty (dflt : Option String) (body sig ts s : String) (hs : s ≠ "")
    (hA : isAsciiStr sig = true) :
    verify_webhook_signature dflt body sig ts (some s) =
      if sig = expectedWebhookSignature s ts body then successMsg else failMsg := by
  have hE : effectiveSecret (some s) dflt = some s := by
    simp [effectiveSecret, pyFalsy, hs]
  exact verify_match_eq dflt body sig ts (some s) s hE hs hA

/-- The exception template of line 309 differs from any fixed outcome
string that disagrees with its prefix at some position below 25. -/
theorem exception_ne_fixed (e t : String) (n : Nat) (hn : n < 25)
    (hne : ("Error verifying webhook: " : String).data[n]? ≠ t.data[n]?) :
    verifyExceptionMsg e ≠ t := by
  intro h
  apply hne
  have hd : ("Error verifying webhook: " : String).data ++ e.data = t.data := by
    have := congrArg String.data h
    simpa [verifyExceptionMsg, String.data_append] using this
  have hlt : n < (("Error verifying webhook: " : String).data).length := by
    have h25 : (("Error verifying webhook: " : String).data).length = 25 := by decide
    omega
  calc ("Error verifying webhook: " : String).data[n]?
      = (("Error verifying webhook: " : String).data ++ e.data)[n]? :=
        (List.getElem?_append_left hlt).symm
    _ = t.data[n]? := by rw [hd]

/-- A falsy environment secret yields no `self.secret_key`. -/
theorem secretKeyOf_eq_none (e : Option String) (h : pyFalsy e = true) : secretKeyOf e = none := by
  cases e with
  | none => rfl
  | some s =>
      have hs : s = "" := by simpa [pyFalsy] using h
      simp [secretKeyOf, hs]

/-! ## Claim theorems -/

/-- C1: for every secret, timestamp and body, the webhook verifier builds
the signing string as the direct concatenation `timestamp ++ rawBody`,
computes the expected signature as base64 of the HMAC-SHA256 of it under
the secret, and reports a match exactly when the received signature
equals that expected value; for the spec's concrete vector the signing
string is exactly the timestamp followed immediately by the JSON body. -/
theorem webhook_verify_matches_expected (secret ts body sig : String) (h : secret ≠ "") :
    (verify_webhook_signature none body sig ts (some secret) = successMsg ↔
      sig = base64Encode (hmacSha256 (strBytes secret) (strBytes (ts ++ body))))
    ∧ webhookSigningString "1700000000" "\x7b\"a\":1\x7d" = "1700000000\x7b\"a\":1\x7d" := by
  refine ⟨?_, by decide⟩
  cases hA : isAsciiStr sig with
  | true =>
      rw [verify_some_nonempty none body sig ts secret h hA]
      by_cases hc : sig = expectedWebhookSignature secret ts body
      · rw [if_pos hc]
        exact ⟨fun _ => hc, fun _ => rfl⟩
      · rw [if_neg hc]
        exact ⟨fun hfs => absurd hfs (by decide), fun hsig => absurd hsig hc⟩
  | false =>
      have hE : effectiveSecret (some secret) none = some secret := by
        simp [effectiveSecret, pyFalsy, h]
      rw [verify_error_eq none body sig ts (some secret) secret hE h hA]
      constructor
      · intro hx
        exact absurd hx (by decide)
      · intro hx
        have hA' : isAsciiStr sig = true := by
          rw [hx]
          exact base64Encode_ascii _
        rw [hA] at hA'
        exact Bool.noConfusion hA'

/-- C1 witness at the spec's concrete vector, with the known-good
received signature. -/
theorem webhook_verify_matches_expected_witness :
    (verify_webhook_signature none "\x7b\"a\":1\x7d"
        "VN0xtaxyRS+iai1Rh9SILE3fsWqefqH5demY/1JT4os=" "1700000000" (some "s3cr3t") = successMsg ↔
      "VN0xtaxyRS+iai1Rh9SILE3fsWqefqH5demY/1JT4os=" =
        base64Encode (hmacSha256 (strBytes "s3cr3t")
          (strBytes ("1700000000" ++ "\x7b\"a\":1\x7d"))))
    ∧ webhookSigningString "1700000000" "\x7b\"a\":1\x7d" = "1700000000\x7b\"a\":1\x7d" :=
  webhook_verify_matches_expected "s3cr3t" "1700000000" "\x7b\"a\":1\x7d"
    "VN0xtaxyRS+iai1Rh9SILE3fsWqefqH5demY/1JT4os=" (by decide)

/-- C2: the signature emitted inside the Authorization header is base64
of the HMAC-SHA256, under the configured secret, of exactly the
canonical signing string the spec describes: the keyId line, the
upper-cased `METHOD path` line, the `date:` line, and — only when a body
is present — the `digest:` line, each terminated by a single line feed
and nothing after the last. -/
theorem sign_emits_hmac_of_canonical_string (keyId : String) (secretKey : List Nat)
    (method path : String) (body : Option String) (date : String) :
    (sign_request keyId secretKey method path body date).authorization =
      authorizationHeader keyId (base64Encode (hmacSha256 secretKey
        (strBytes (canonicalSigningString keyId method path body date)))) := by
  simp only [sign_request]
  rw [signing_string_eq_canonical]

/-- C4 counterexample: a concrete signed call with a body emits a Digest
header and signs a digest line, yet the headers field declared inside
the emitted Authorization header is the fixed string
`@request-target date`, which does not mention `digest`. -/
theorem headers_field_counterexample :
    (sign_request "key-1" (strBytes "s3cr3t") "post" "/order" (some "\x7b\"a\":1\x7d")
        "Thu, 01 Jan 2026 00:00:00 GMT").digest.isSome = true
    ∧ authHeadersField (sign_request "key-1" (strBytes "s3cr3t") "post" "/order"
        (some "\x7b\"a\":1\x7d") "Thu, 01 Jan 2026 00:00:00 GMT").authorization =
      "@request-target date"
    ∧ hasSub "digest".data "@request-target date".data = false :=
  ⟨rfl, by decide, by decide⟩

/-- C4 amended: signing without a body never emits a Digest header, and
signing with a body always emits `SHA-256=<base64 digest>`; but the
headers declaration inside the Authorization header is always the fixed
string `@request-target date` — it does not list `digest` even when a
digest line was signed. -/
theorem digest_presence_amended (k : String) (sk : List Nat) (m p d b : String) :
    (sign_request k sk m p none d).digest = none
    ∧ (sign_request k sk m p (some b) d).digest = some ("SHA-256=" ++ bodyDigestBase64 b)
    ∧ (sign_request k sk m p (some b) d).authorization =
        authorizationHeader k (base64Encode (hmacSha256 sk
          (strBytes (sign_signing_string k m p (some b) d))))
    ∧ hasSub "digest".data "@request-target date".data = false :=
  ⟨rfl, rfl, rfl, by decide⟩

/-- C5: when no credential is configured and none is supplied, the
request path returns the configuration-error outcome before any signed
request exists, and the webhook verifier returns the configuration-error
message before any verdict; both outcomes are distinct from every
success outcome, so the failure is surfaced, not a crash or a silent
bypass. -/
theorem missing_secret_yields_config_error
    (apiKey envSecret : Option String) (m p : String) (b : Option String) (gmt : String)
    (dflt : Option String) (body sig ts : String) (arg : Option String) :
    (pyFalsy apiKey = true ∨ pyFalsy envSecret = true →
        clientRequest apiKey envSecret m p b gmt = RequestResult.credsError)
    ∧ (pyFalsy arg = true → pyFalsy dflt = true →
        verify_webhook_signature dflt body sig ts arg = configMsg)
    ∧ (∀ hs, RequestResult.credsError ≠ RequestResult.dispatched hs)
    ∧ configMsg ≠ successMsg ∧ configMsg ≠ failMsg := by
  refine ⟨?_, ?_, ?_, by decide, by decide⟩
  · intro h
    cases h with
    | inl hk =>
        cases apiKey with
        | none => rfl
        | some k =>
            have hk' : k = "" := by simpa [pyFalsy] using hk
            subst hk'
            cases hsec : secretKeyOf envSecret with
            | none => simp [clientRequest, hsec]
            | some sk => simp [clientRequest, hsec]
    | inr he =>
        have hs := secretKeyOf_eq_none envSecret he
        cases apiKey with
        | none => rfl
        | some k => simp [clientRequest, hs]
  · intro h1 h2
    have hE : effectiveSecret arg dflt = dflt := by simp [effectiveSecret, h1]
    cases dflt with
    | none => exact verify_none_eq none body sig ts arg hE
    | some s =>
        have hs : s = "" := by simpa [pyFalsy] using h2
        rw [verify_some_eq (some s) body sig ts arg s hE, if_pos hs]
  · intro hs h
    exact RequestResult.noConfusion h

/-- C5 witness: an unset API key and an unset default webhook secret. -/
theorem missing_secret_yields_config_error_witness :
    clientRequest none (some "s3cr3t") "GET" "/order" none "Thu, 01 Jan 2026 00:00:00 GMT" =
      RequestResult.credsError
    ∧ verify_webhook_signature none "body" "sig" "1700000000" none = configMsg :=
  ⟨(missing_secret_yields_config_error none (some "s3cr3t") "GET" "/order" none
      "Thu, 01 Jan 2026 00:00:00 GMT" none "body" "sig" "1700000000" none).1 (Or.inl rfl),
   (missing_secret_yields_config_error none (some "s3cr3t") "GET" "/order" none
      "Thu, 01 Jan 2026 00:00:00 GMT" none "body" "sig" "1700000000" none).2.1 rfl rfl⟩

/-- C6: every verifier run lands on one of four outcomes — configuration
error, match, mismatch, or the internal-error outcome the line-309
except branch produces when `compare_digest` rejects a non-ASCII
received signature; the three taxonomy outcomes are pairwise distinct
strings; the internal-error template is distinct from all three for
every error text, so the taxonomy stays distinguishable; and the match
outcome occurs exactly when an effective non-empty secret exists and the
received signature equals the expected one, so no error is ever
swallowed into a success value. -/
theorem verify_outcomes_distinguishable (dflt : Option String) (body sig ts : String)
    (arg : Option String) :
    (verify_webhook_signature dflt body sig ts arg = configMsg
      ∨ verify_webhook_signature dflt body sig ts arg = successMsg
      ∨ verify_webhook_signature dflt body sig ts arg = failMsg
      ∨ verify_webhook_signature dflt body sig ts arg = verifyExceptionMsg nonAsciiMsg)
    ∧ (configMsg ≠ successMsg ∧ configMsg ≠ failMsg ∧ successMsg ≠ failMsg)
    ∧ (∀ e : String, verifyExceptionMsg e ≠ configMsg ∧ verifyExceptionMsg e ≠ successMsg
        ∧ verifyExceptionMsg e ≠ failMsg)
    ∧ (verify_webhook_signature dflt body sig ts arg = successMsg ↔
        ∃ s, effectiveSecret arg dflt = some s ∧ s ≠ ""
          ∧ sig = expectedWebhookSignature s ts body) := by
  refine ⟨?_, ⟨by decide, by decide, by decide⟩, ?_, ?_⟩
  · cases hE : effectiveSecret arg dflt with
    | none => exact Or.inl (verify_none_eq dflt body sig ts arg hE)
    | some s =>
        by_cases hs : s = ""
        · rw [verify_some_eq dflt body sig ts arg s hE, if_pos hs]
          exact Or.inl rfl
        · cases hA : isAsciiStr sig with
          | true =>
              rw [verify_match_eq dflt body sig ts arg s hE hs hA]
              by_cases hc : sig = expectedWebhookSignature s ts body
              · rw [if_pos hc]; exact Or.inr (Or.inl rfl)
              · rw [if_neg hc]; exact Or.inr (Or.inr (Or.inl rfl))
          | false =>
              exact Or.inr (Or.inr (Or.inr (verify_error_eq dflt body sig ts arg s hE hs hA)))
  · intro e
    exact ⟨exception_ne_fixed e configMsg 5 (by decide) (by decide),
           exception_ne_fixed e successMsg 0 (by decide) (by decide),
           exception_ne_fixed e failMsg 0 (by decide) (by decide)⟩
  · cases hE : effectiveSecret arg dflt with
    | none =>
        rw [verify_none_eq dflt body sig ts arg hE]
        constructor
        · intro h; exact absurd h (by decide)
        · rintro ⟨s2, hs2, _, _⟩; exact Option.noConfusion hs2
    | some s =>
        by_cases hs : s = ""
        · rw [verify_some_eq dflt body sig ts arg s hE, if_pos hs]
          constructor
          · intro h; exact absurd h (by decide)
          · rintro ⟨s2, hs2, hne2, _⟩
            injection hs2 with h2
            exact absurd (h2.symm.trans hs) hne2
        · cases hA : isAsciiStr sig with
          | true =>
              rw [verify_match_eq dflt body sig ts arg s hE hs hA]
              by_cases hc : sig = expectedWebhookSignature s ts body
              · rw [if_pos hc]
                exact ⟨fun _ => ⟨s, rfl, hs, hc⟩, fun _ => rfl⟩
              · rw [if_neg hc]
                constructor
                · intro h; exact absurd h (by decide)
                · rintro ⟨s2, hs2, _, hc2⟩
                  injection hs2 with h2
                  subst h2
                  exact absurd hc2 hc
          | false =>
              rw [verify_error_eq dflt body sig ts arg s hE hs hA]
              constructor
              · intro h; exact absurd h (by decide)
              · rintro ⟨s2, hs2, _, hc2⟩
                injection hs2 with h2
                subst h2
                have hA' : isAsciiStr sig = true := by
                  rw [hc2]
                  exact expected_ascii s ts body
                rw [hA] at hA'
                exact Bool.noConfusion hA'

/-- C6 witness: a concrete run lands on one of the four outcomes. -/
theorem verify_outcomes_distinguishable_witness :
    verify_webhook_signature (some "s3cr3t") "x" "wrong" "1700000000" none = configMsg
    ∨ verify_webhook_signature (some "s3cr3t") "x" "wrong" "1700000000" none = successMsg
    ∨ verify_webhook_signature (some "s3cr3t") "x" "wrong" "1700000000" none = failMsg
    ∨ verify_webhook_signature (some "s3cr3t") "x" "wrong" "1700000000" none =
        verifyExceptionMsg nonAsciiMsg :=
  (verify_outcomes_distinguishable (some "s3cr3t") "x" "wrong" "1700000000" none).1

/-- C7: reconstructing the canonical signing string from the components
of the signing output — keyId, upper-cased method, path, the emitted
Date header value, and the Digest header value when present — and
recomputing base64 of the HMAC-SHA256 yields exactly the signature
embedded in the emitted Authorization header. -/
theorem signature_roundtrip (keyId : String) (secretKey : List Nat) (method path : String)
    (body : Option String) (date : String) :
    (sign_request keyId secretKey method path body date).authorization =
      authorizationHeader keyId (base64Encode (hmacSha256 secretKey (strBytes
        (reconstructedSigningString keyId method path
          (sign_request keyId secretKey method path body date))))) := by
  rw [reconstructed_eq_signing]
  rfl

/-- C8: any well-formed received signature — an ASCII string, the shape
`compare_digest` accepts — that differs from the expected one makes the
verifier return the mismatch outcome, not the configuration-error
outcome and not the internal-error outcome. -/
theorem wrong_signature_returns_false (S T body sig : String) (hS : S ≠ "")
    (hwf : isAsciiStr sig = true)
    (hsig : sig ≠ expectedWebhookSignature S T body) :
    verify_webhook_signature none body sig T (some S) = failMsg
    ∧ failMsg ≠ configMsg ∧ (∀ e : String, failMsg ≠ verifyExceptionMsg e) := by
  refine ⟨?_, by decide,
    fun e => Ne.symm (exception_ne_fixed e failMsg 0 (by decide) (by decide))⟩
  rw [verify_some_nonempty none body sig T S hS hwf]
  exact if_neg hsig

/-- C8 witness: the spec's negative case, body "x" and signature
"wrong". -/
theorem wrong_signature_returns_false_witness :
    verify_webhook_signature none "x" "wrong" "1700000000" (some "s3cr3t") = failMsg :=
  (wrong_signature_returns_false "s3cr3t" "1700000000" "x" "wrong"
    (by decide) (by decide) (by decide)).1

/-- C9: for fixed keyId, secret, method, path, body and timestamp, sign
and verify are deterministic — two invocations with identical inputs
produce identical outputs. Wall-clock time enters only through the date
string, which is an explicit input here, so fixing the timestamp fixes
it. -/
theorem sign_verify_deterministic
    (k k2 : String) (sk sk2 : List Nat) (m m2 p p2 : String) (b b2 : Option String)
    (d d2 : String) (ds ds2 : Option String) (bo bo2 sg sg2 ts ts2 : String)
    (a a2 : Option String)
    (h1 : k = k2) (h2 : sk = sk2) (h3 : m = m2) (h4 : p = p2) (h5 : b = b2) (h6 : d = d2)
    (h7 : ds = ds2) (h8 : bo = bo2) (h9 : sg = sg2) (h10 : ts = ts2) (h11 : a = a2) :
    sign_request k sk m p b d = sign_request k2 sk2 m2 p2 b2 d2
    ∧ verify_webhook_signature ds bo sg ts a = verify_webhook_signature ds2 bo2 sg2 ts2 a2 := by
  subst h1 h2 h3 h4 h5 h6 h7 h8 h9 h10 h11
  exact ⟨rfl, rfl⟩

/-- C9 witness at concrete inputs. -/
theorem sign_verify_deterministic_witness :
    sign_request "k" (strBytes "s") "get" "/p" none "D" =
      sign_request "k" (strBytes "s") "get" "/p" none "D"
    ∧ verify_webhook_signature none "b" "s" "t" none =
      verify_webhook_signature none "b" "s" "t" none :=
  sign_verify_deterministic "k" "k" (strBytes "s") (strBytes "s") "get" "get" "/p" "/p"
    none none "D" "D" none none "b" "b" "s" "s" "t" "t" none none
    rfl rfl rfl rfl rfl rfl rfl rfl rfl rfl rfl

/-- C10: a falsy webhook-secret argument — absent or the empty string —
is replaced by the process default, so the empty-string call behaves
exactly like the absent call; under a non-empty default it verifies
against that default (deciding match against the default's expected
signature whenever the received signature is ASCII, the shape
`compare_digest` accepts); and the configuration-error outcome occurs
exactly when the default is also unset or empty. -/
theorem falsy_webhook_secret_falls_back (dflt : Option String) (body sig ts : String) :
    (verify_webhook_signature dflt body sig ts (some "") =
        verify_webhook_signature dflt body sig ts none)
    ∧ (∀ s, dflt = some s → s ≠ "" → isAsciiStr sig = true →
        verify_webhook_signature dflt body sig ts (some "") =
          if sig = expectedWebhookSignature s ts body then successMsg else failMsg)
    ∧ (verify_webhook_signature dflt body sig ts (some "") = configMsg ↔
        (dflt = none ∨ dflt = some "")) := by
  refine ⟨rfl, ?_, ?_, ?_⟩
  · intro s hd hs hA
    subst hd
    exact verify_match_eq (some s) body sig ts (some "") s rfl hs hA
  · intro h
    cases dflt with
    | none => exact Or.inl rfl
    | some s =>
        by_cases hs : s = ""
        · exact Or.inr (by rw [hs])
        · exfalso
          cases hA : isAsciiStr sig with
          | true =>
              rw [verify_match_eq (some s) body sig ts (some "") s rfl hs hA] at h
              by_cases hc : sig = expectedWebhookSignature s ts body
              · rw [if_pos hc] at h
                exact absurd h (by decide)
              · rw [if_neg hc] at h
                exact absurd h (by decide)
          | false =>
              rw [verify_error_eq (some s) body sig ts (some "") s rfl hs hA] at h
              exact absurd h (by decide)
  · rintro (rfl | rfl) <;> rfl

/-- C10 witness: an explicitly empty secret argument verifies against
the non-empty default. -/
theorem falsy_webhook_secret_falls_back_witness :
    verify_webhook_signature (some "s3cr3t") "x" "w" "1700000000" (some "") =
      if ("w" : String) = expectedWebhookSignature "s3cr3t" "1700000000" "x"
      then successMsg else failMsg :=
  (falsy_webhook_secret_falls_back (some "s3cr3t") "x" "w" "1700000000").2.1
    "s3cr3t" rfl (by decide) (by decide)

end Infini
